import Mathlib

/-!
Shallow embedding of the signal-monitoring data generator
(`src/data_generator.py`, class `SensorDataGenerator`).

Python floats are modelled as rationals (ℚ).  The transcendental and random
parts of the signal model (`math.sin`, `random.gauss`, `random.random`,
`random.uniform`) are abstracted into an oracle structure `RandomOracle`
supplying the drawn values; everything else is translated directly from the
source.  The manual-anomaly dict is modelled as an association list with
Python-dict semantics (lookup, overwrite-insert, delete).  The filesystem is
modelled explicitly where a claim needs it: history-file contents as an
inductive (`missing` / `corrupt` / `parsed`), and write failures as an
`Except`-valued write function.
-/

namespace SignalMonitoring

/-- Severity status of a reading, one of the three strings produced at
`data_generator.py` lines 143-148. -/
inductive Status where
  | normal
  | warning
  | critical
deriving DecidableEq, Repr

/-- Configuration of one sensor type: one entry of `self.sensor_configs`
(`data_generator.py` lines 25-80).  Ranges are `(min, max)` pairs, as in the
source tuples. -/
structure SensorTypeConfig where
  base_value : ℚ
  unit : String
  normal_range : ℚ × ℚ
  warning_range : ℚ × ℚ
  variance : ℚ
  trend_amplitude : ℚ
  trend_period : ℚ
deriving DecidableEq, Repr

/-- The `"temperature"` entry of `sensor_configs`. -/
def temperature_config : SensorTypeConfig :=
  { base_value := 22, unit := "°C", normal_range := (15, 30),
    warning_range := (10, 35), variance := 1/2, trend_amplitude := 5,
    trend_period := 3600 }

/-- The `"humidity"` entry of `sensor_configs`. -/
def humidity_config : SensorTypeConfig :=
  { base_value := 45, unit := "%", normal_range := (30, 60),
    warning_range := (20, 70), variance := 2, trend_amplitude := 15,
    trend_period := 7200 }

/-- The `"pressure"` entry of `sensor_configs`. -/
def pressure_config : SensorTypeConfig :=
  { base_value := 1013/10, unit := "кПа", normal_range := (99, 103),
    warning_range := (98, 104), variance := 1/5, trend_amplitude := 1,
    trend_period := 10800 }

/-- The `"vibration"` entry of `sensor_configs`. -/
def vibration_config : SensorTypeConfig :=
  { base_value := 15, unit := "Гц", normal_range := (5, 25),
    warning_range := (2, 35), variance := 1, trend_amplitude := 3,
    trend_period := 1800 }

/-- The `"noise"` entry of `sensor_configs`. -/
def noise_config : SensorTypeConfig :=
  { base_value := 65, unit := "дБ", normal_range := (50, 75),
    warning_range := (45, 85), variance := 2, trend_amplitude := 10,
    trend_period := 900 }

/-- The `"power"` entry of `sensor_configs`. -/
def power_config : SensorTypeConfig :=
  { base_value := 5/2, unit := "кВт·ч", normal_range := (1, 4),
    warning_range := (1/2, 5), variance := 3/10, trend_amplitude := 3/2,
    trend_period := 3600 }

/-- `self.sensor_configs` (`data_generator.py` lines 25-80), in insertion
order, as an ordered association list (Python dicts preserve insertion
order). -/
def sensor_configs : List (String × SensorTypeConfig) :=
  [("temperature", temperature_config),
   ("humidity", humidity_config),
   ("pressure", pressure_config),
   ("vibration", vibration_config),
   ("noise", noise_config),
   ("power", power_config)]

/-- `self.sensor_configs[sensor_type]`: dict lookup by key, `none` models a
Python `KeyError`. -/
def lookupConfig (sensor_type : String) : Option SensorTypeConfig :=
  (sensor_configs.find? (fun p => p.1 == sensor_type)).map (fun p => p.2)

/-- One device entry of `self.devices` (`data_generator.py` lines 83-90). -/
structure Device where
  device_id : String
  type : String
deriving DecidableEq, Repr

/-- Python's `f"{i:02d}"` for the device index. -/
def two_digit (i : ℕ) : String :=
  if i < 10 then "0" ++ toString i else toString i

/-- `self.devices` (`data_generator.py` lines 83-90): three devices per
sensor type, ids `<type>_<NN>` for `NN` in `01..03`, in catalog order. -/
def devices : List Device :=
  sensor_configs.flatMap (fun p =>
    (List.range' 1 3).map (fun i =>
      { device_id := p.1 ++ "_" ++ two_digit i, type := p.1 }))

/-- One value of `self.manual_anomalies` (`data_generator.py` line 161-164). -/
structure ManualAnomaly where
  value : ℚ
  end_time : ℚ
deriving DecidableEq, Repr

/-- The `self.manual_anomalies` dict, `device_id ↦ ManualAnomaly`, modelled
as an association list with Python-dict semantics. -/
abbrev AnomalyTable := List (String × ManualAnomaly)

/-- Dict membership test / lookup: `self.manual_anomalies[device_id]`. -/
def tableFind (table : AnomalyTable) (k : String) : Option ManualAnomaly :=
  (table.find? (fun p => p.1 == k)).map (fun p => p.2)

/-- Dict deletion: `del self.manual_anomalies[device_id]`. -/
def tableErase (table : AnomalyTable) (k : String) : AnomalyTable :=
  table.filter (fun p => p.1 != k)

/-- Dict assignment: `self.manual_anomalies[device_id] = ...` (overwrites any
existing entry for the key). -/
def tableInsert (table : AnomalyTable) (k : String) (a : ManualAnomaly) : AnomalyTable :=
  (k, a) :: tableErase table k

/-- Oracle for the nondeterministic parts of `generate_value`:
`sin2pi x` stands for `math.sin(2 * math.pi * x)`; `gauss` is the draw of
`random.gauss(0, variance)`; `anomaly_roll` and `direction_roll` are the two
`random.random()` draws; `uniform_draw` is the `random.uniform(1.2, 1.5)`
draw. -/
structure RandomOracle where
  sin2pi : ℚ → ℚ
  gauss : ℚ
  anomaly_roll : ℚ
  direction_roll : ℚ
  uniform_draw : ℚ

/-- `self.anomaly_probability` (`data_generator.py` line 94). -/
def anomaly_probability : ℚ := 1/100

/-- Lines 126-141 of `generate_value`: trend + Gaussian noise + probabilistic
random anomaly, before rounding and classification. -/
def signal_model (config : SensorTypeConfig) (timestamp : ℚ) (rng : RandomOracle) : ℚ :=
  let trend_component := config.trend_amplitude * rng.sin2pi (timestamp / config.trend_period)
  let random_component := rng.gauss
  let value := config.base_value + trend_component + random_component
  if rng.anomaly_roll < anomaly_probability then
    let direction : ℚ := if rng.direction_roll > 1/2 then 1 else -1
    let anomaly_magnitude := (config.normal_range.2 - config.normal_range.1) * rng.uniform_draw
    value + direction * anomaly_magnitude
  else
    value

/-- Round-half-even to an integer, the tie-breaking rule of Python's
built-in `round`. -/
def roundHalfEven (q : ℚ) : ℤ :=
  let f := ⌊q⌋
  if q - f < 1/2 then f
  else if q - f > 1/2 then f + 1
  else if f % 2 = 0 then f else f + 1

/-- Python's `round(value, 2)` (`data_generator.py` line 150). -/
def roundTo2 (q : ℚ) : ℚ :=
  (roundHalfEven (q * 100) : ℚ) / 100

/-- Lines 143-148 of `generate_value`: `status` starts as `"normal"`, is
overwritten to `"warning"` if the value leaves `normal_range`, then to
`"critical"` if it leaves `warning_range`. -/
def classifyStatus (config : SensorTypeConfig) (value : ℚ) : Status :=
  let status := Status.normal
  let status := if value < config.normal_range.1 ∨ value > config.normal_range.2
    then Status.warning else status
  let status := if value < config.warning_range.1 ∨ value > config.warning_range.2
    then Status.critical else status
  status

/-- `SensorDataGenerator.generate_value` (`data_generator.py` lines 102-150).
Returns the `(value, status)` pair together with the manual-anomaly table
after the call (the Python method mutates `self.manual_anomalies` in place);
`none` models the `KeyError` of a failed config lookup. -/
def generate_value (manual_anomalies : AnomalyTable) (device : Device)
    (timestamp : ℚ) (rng : RandomOracle) : Option ((ℚ × Status) × AnomalyTable) :=
  match lookupConfig device.type with
  | none => none
  | some config =>
    match tableFind manual_anomalies device.device_id with
    | some anomaly =>
      if anomaly.end_time ≥ timestamp then
        some ((anomaly.value, Status.critical), manual_anomalies)
      else
        let remaining := tableErase manual_anomalies device.device_id
        let value := signal_model config timestamp rng
        some ((roundTo2 value, classifyStatus config value), remaining)
    | none =>
      let value := signal_model config timestamp rng
      some ((roundTo2 value, classifyStatus config value), manual_anomalies)

/-- `SensorDataGenerator.add_manual_anomaly` (`data_generator.py` lines
152-164); `now` is the value of `time.time()` at the call. -/
def add_manual_anomaly (table : AnomalyTable) (device_id : String)
    (value : ℚ) (duration : ℚ) (now : ℚ) : AnomalyTable :=
  tableInsert table device_id { value := value, end_time := now + duration }

/-- One element of a `data_batch` (`data_generator.py` lines 177-184): the
dict written for one device on one tick. -/
structure SensorReading where
  device_id : String
  type : String
  value : ℚ
  unit : String
  timestamp : ℚ
  status : Status
deriving DecidableEq, Repr

/-- Observable state of a daily history file as `save_history_data` reads it
(`data_generator.py` lines 222-230): absent, present but not parseable as
JSON (`json.JSONDecodeError`), or parsed to a list of readings. -/
inductive HistoryFile where
  | missing
  | corrupt
  | parsed (readings : List SensorReading)
deriving DecidableEq, Repr

/-- The read phase of `save_history_data` (lines 222-230): start from the
parsed file contents, or from the empty list when the file is missing or
raises `json.JSONDecodeError`. -/
def load_history (f : HistoryFile) : List SensorReading :=
  match f with
  | HistoryFile.missing => []
  | HistoryFile.corrupt => []
  | HistoryFile.parsed readings => readings

/-- `max_records` (`data_generator.py` line 237):
`int(24 * 60 * 60 / 5 * len(self.devices))`. -/
def max_records : ℕ := 24 * 60 * 60 / 5 * devices.length

/-- `SensorDataGenerator.save_history_data` (`data_generator.py` lines
214-243): the list of readings the history file holds after the call, given
its prior state and the appended batch.  `history[-max_records:]` for a list
longer than `max_records` keeps the last `max_records` elements. -/
def save_history_data (f : HistoryFile) (data_batch : List SensorReading) :
    List SensorReading :=
  let history_data := load_history f
  let history_data := history_data ++ data_batch
  if history_data.length > max_records then
    history_data.drop (history_data.length - max_records)
  else
    history_data

/-- The per-tick body of `generate_data` (`data_generator.py` lines 169-185):
walk the device catalog, generate each value, and assemble the batch of
readings, threading the manual-anomaly table through the calls.  `rngs i`
supplies the random draws consumed for the `i`-th device of the walk;
`none` models a `KeyError`. -/
def build_batch (timestamp : ℚ) (rngs : ℕ → RandomOracle) :
    List Device → ℕ → AnomalyTable → Option (List SensorReading × AnomalyTable)
  | [], _, manual_anomalies => some ([], manual_anomalies)
  | device :: rest, i, manual_anomalies =>
    match lookupConfig device.type, generate_value manual_anomalies device timestamp (rngs i) with
    | some config, some ((value, status), table) =>
      match build_batch timestamp rngs rest (i + 1) table with
      | some (readings, final_table) =>
        some ({ device_id := device.device_id, type := device.type, value := value,
                unit := config.unit, timestamp := timestamp, status := status } :: readings,
              final_table)
      | none => none
    | _, _ => none

/-- A filesystem write failure (permission denied, disk full, ...). -/
inductive IOErr where
  | permission
  | diskFull
deriving DecidableEq, Repr

/-- The per-device writes of the tick loop (`data_generator.py` lines
187-189, via `save_device_data`): one `open`+`json.dump` per reading, each of
which may raise; the loop body has no handler, so the first failure
propagates. -/
def save_all_devices (fs : String → Except IOErr Unit) :
    List SensorReading → Except IOErr Unit
  | [] => Except.ok ()
  | reading :: rest =>
    match fs (reading.device_id ++ ".json") with
    | Except.ok _ => save_all_devices fs rest
    | Except.error e => Except.error e

/-- The persistence sequence of one iteration of `generate_data`
(`data_generator.py` lines 187-198): per-device files, then
`current_data.json`, then the daily history file.  `fs` decides whether the
write to a given file name succeeds; no exception is caught, so the first
failure propagates out of the tick. -/
def tick_persist (fs : String → Except IOErr Unit) (data_batch : List SensorReading)
    (history_name : String) : Except IOErr Unit :=
  match save_all_devices fs data_batch with
  | Except.error e => Except.error e
  | Except.ok _ =>
    match fs "current_data.json" with
    | Except.error e => Except.error e
    | Except.ok _ => fs history_name

/-- The `while self.running` loop of `generate_data` (lines 168-201),
restricted to its persistence effects: attempt `n` ticks, returning how many
completed, or the error that escaped the loop (an uncaught exception ends
the thread). -/
def run_ticks (fs : String → Except IOErr Unit) (data_batch : List SensorReading)
    (history_name : String) : ℕ → Except IOErr ℕ
  | 0 => Except.ok 0
  | n + 1 =>
    match tick_persist fs data_batch history_name with
    | Except.error e => Except.error e
    | Except.ok _ => (run_ticks fs data_batch history_name n).map (fun k => k + 1)

/-- A concrete oracle for witnesses: zero trend phase, zero noise, no random
anomaly. -/
def testOracle : RandomOracle :=
  { sin2pi := fun _ => 0, gauss := 0, anomaly_roll := 1, direction_roll := 0,
    uniform_draw := 13/10 }

/-! ### Helper lemmas -/

theorem roundHalfEven_intCast (z : ℤ) : roundHalfEven (z : ℚ) = z := by
  simp only [roundHalfEven, Int.floor_intCast, sub_self]
  norm_num

theorem roundTo2_idem (q : ℚ) : roundTo2 (roundTo2 q) = roundTo2 q := by
  unfold roundTo2
  rw [div_mul_cancel₀ _ (by norm_num : (100 : ℚ) ≠ 0), roundHalfEven_intCast]

theorem tableFind_insert_self (table : AnomalyTable) (k : String) (a : ManualAnomaly) :
    tableFind (tableInsert table k a) k = some a := by
  simp [tableFind, tableInsert]

theorem generate_value_no_anomaly (manual_anomalies : AnomalyTable) (device : Device)
    (timestamp : ℚ) (rng : RandomOracle) (config : SensorTypeConfig)
    (hcfg : lookupConfig device.type = some config)
    (hno : tableFind manual_anomalies device.device_id = none) :
    generate_value manual_anomalies device timestamp rng =
      some ((roundTo2 (signal_model config timestamp rng),
             classifyStatus config (signal_model config timestamp rng)),
            manual_anomalies) := by
  simp [generate_value, hcfg, hno]

theorem generate_value_active (manual_anomalies : AnomalyTable) (device : Device)
    (timestamp : ℚ) (rng : RandomOracle) (config : SensorTypeConfig) (a : ManualAnomaly)
    (hcfg : lookupConfig device.type = some config)
    (ha : tableFind manual_anomalies device.device_id = some a)
    (ht : a.end_time ≥ timestamp) :
    generate_value manual_anomalies device timestamp rng =
      some ((a.value, Status.critical), manual_anomalies) := by
  simp [generate_value, hcfg, ha, ht]

theorem generate_value_expired (manual_anomalies : AnomalyTable) (device : Device)
    (timestamp : ℚ) (rng : RandomOracle) (config : SensorTypeConfig) (a : ManualAnomaly)
    (hcfg : lookupConfig device.type = some config)
    (ha : tableFind manual_anomalies device.device_id = some a)
    (ht : ¬ a.end_time ≥ timestamp) :
    generate_value manual_anomalies device timestamp rng =
      some ((roundTo2 (signal_model config timestamp rng),
             classifyStatus config (signal_model config timestamp rng)),
            tableErase manual_anomalies device.device_id) := by
  simp [generate_value, hcfg, ha, ht]

theorem configs_trend_period_pos : ∀ p ∈ sensor_configs, 0 < p.2.trend_period := by
  intro p hp
  fin_cases hp <;>
    norm_num [temperature_config, humidity_config, pressure_config, vibration_config,
      noise_config, power_config]

theorem lookupConfig_mem (ty : String) (c : SensorTypeConfig)
    (h : lookupConfig ty = some c) : ∃ p ∈ sensor_configs, p.2 = c := by
  unfold lookupConfig at h
  cases hf : sensor_configs.find? (fun p => p.1 == ty) with
  | none => rw [hf] at h; simp at h
  | some p =>
    rw [hf] at h
    simp only [Option.map_some', Option.some.injEq] at h
    exact ⟨p, List.mem_of_find?_eq_some hf, h⟩

theorem devices_lookup_isSome : ∀ d ∈ devices, (lookupConfig d.type).isSome := by decide

theorem generate_value_isSome (manual_anomalies : AnomalyTable) (device : Device)
    (timestamp : ℚ) (rng : RandomOracle) (config : SensorTypeConfig)
    (hcfg : lookupConfig device.type = some config) :
    ∃ v st table, generate_value manual_anomalies device timestamp rng =
      some ((v, st), table) := by
  cases ha : tableFind manual_anomalies device.device_id with
  | none =>
    exact ⟨_, _, _, generate_value_no_anomaly _ _ _ _ _ hcfg ha⟩
  | some a =>
    by_cases ht : a.end_time ≥ timestamp
    · exact ⟨_, _, _, generate_value_active _ _ _ _ _ _ hcfg ha ht⟩
    · exact ⟨_, _, _, generate_value_expired _ _ _ _ _ _ hcfg ha ht⟩

/-! ### Claim theorems -/

/-- Claim C8: every SensorTypeConfig in the hard-coded catalog satisfies
`warning_range.min ≤ normal_range.min ≤ normal_range.max ≤ warning_range.max`
(the warning range fully contains the normal range), and the catalog holds
exactly the six hard-coded sensor types. -/
theorem C8_config_containment :
    sensor_configs.length = 6 ∧
    ∀ p ∈ sensor_configs,
      p.2.warning_range.1 ≤ p.2.normal_range.1 ∧
      p.2.normal_range.1 ≤ p.2.normal_range.2 ∧
      p.2.normal_range.2 ≤ p.2.warning_range.2 := by
  refine ⟨rfl, ?_⟩
  intro p hp
  fin_cases hp <;>
    norm_num [temperature_config, humidity_config, pressure_config, vibration_config,
      noise_config, power_config]

/-- Witness for C8 at the `"temperature"` catalog entry. -/
theorem C8_witness :
    ("temperature", temperature_config) ∈ sensor_configs ∧
    (temperature_config.warning_range.1 ≤ temperature_config.normal_range.1 ∧
     temperature_config.normal_range.1 ≤ temperature_config.normal_range.2 ∧
     temperature_config.normal_range.2 ≤ temperature_config.warning_range.2) :=
  ⟨List.Mem.head _,
   C8_config_containment.2 ("temperature", temperature_config) (List.Mem.head _)⟩

/-- Claim C1: for a device whose config's warning range contains its normal
range, on the non-manual-anomaly path `generate_value` returns the signal
value classified by `classifyStatus`, and `classifyStatus` assigns `normal`
iff `normal_range.min ≤ v ≤ normal_range.max`, `critical` iff
`v < warning_range.min` or `v > warning_range.max`, and `warning` exactly in
the remaining case — three mutually exclusive, exhaustive cases. -/
theorem C1_status_classification (config : SensorTypeConfig) (device : Device)
    (manual_anomalies : AnomalyTable) (timestamp : ℚ) (rng : RandomOracle)
    (hcfg : lookupConfig device.type = some config)
    (hcont : config.warning_range.1 ≤ config.normal_range.1 ∧
             config.normal_range.2 ≤ config.warning_range.2)
    (hno : tableFind manual_anomalies device.device_id = none) :
    generate_value manual_anomalies device timestamp rng =
      some ((roundTo2 (signal_model config timestamp rng),
             classifyStatus config (signal_model config timestamp rng)),
            manual_anomalies) ∧
    ∀ v : ℚ,
      (classifyStatus config v = Status.normal ↔
        config.normal_range.1 ≤ v ∧ v ≤ config.normal_range.2) ∧
      (classifyStatus config v = Status.critical ↔
        (v < config.warning_range.1 ∨ v > config.warning_range.2)) ∧
      (classifyStatus config v = Status.warning ↔
        (¬(config.normal_range.1 ≤ v ∧ v ≤ config.normal_range.2) ∧
         ¬(v < config.warning_range.1 ∨ v > config.warning_range.2))) := by
  refine ⟨generate_value_no_anomaly _ _ _ _ _ hcfg hno, ?_⟩
  intro v
  obtain ⟨hcw1, hcw2⟩ := hcont
  simp only [classifyStatus]
  by_cases hw : v < config.warning_range.1 ∨ v > config.warning_range.2
  · rw [if_pos hw]
    refine ⟨iff_of_false (by simp) ?_, iff_of_true rfl hw, iff_of_false (by simp) ?_⟩
    · rintro ⟨h1, h2⟩
      rcases hw with h | h <;> linarith
    · rintro ⟨-, hB⟩
      exact hB hw
  · rw [if_neg hw]
    by_cases hn : v < config.normal_range.1 ∨ v > config.normal_range.2
    · rw [if_pos hn]
      refine ⟨iff_of_false (by simp) ?_, iff_of_false (by simp) hw,
        iff_of_true rfl ⟨?_, hw⟩⟩
      · rintro ⟨h1, h2⟩
        rcases hn with h | h <;> linarith
      · rintro ⟨h1, h2⟩
        rcases hn with h | h <;> linarith
    · rw [if_neg hn]
      push_neg at hn
      refine ⟨iff_of_true rfl hn, iff_of_false (by simp) hw,
        iff_of_false (by simp) ?_⟩
      rintro ⟨hA, -⟩
      exact hA hn

/-- Witness for C1: the temperature device at time `0` with the test oracle,
and the trichotomy instantiated at value `22`. -/
theorem C1_witness :
    (lookupConfig "temperature" = some temperature_config ∧
     temperature_config.warning_range.1 ≤ temperature_config.normal_range.1 ∧
     temperature_config.normal_range.2 ≤ temperature_config.warning_range.2 ∧
     tableFind [] "temperature_01" = none) ∧
    generate_value [] { device_id := "temperature_01", type := "temperature" } 0 testOracle =
      some ((roundTo2 (signal_model temperature_config 0 testOracle),
             classifyStatus temperature_config (signal_model temperature_config 0 testOracle)),
            []) ∧
    (classifyStatus temperature_config 22 = Status.normal ↔
      temperature_config.normal_range.1 ≤ 22 ∧ (22 : ℚ) ≤ temperature_config.normal_range.2) ∧
    (classifyStatus temperature_config 22 = Status.critical ↔
      ((22 : ℚ) < temperature_config.warning_range.1 ∨
       (22 : ℚ) > temperature_config.warning_range.2)) ∧
    (classifyStatus temperature_config 22 = Status.warning ↔
      (¬(temperature_config.normal_range.1 ≤ 22 ∧ (22 : ℚ) ≤ temperature_config.normal_range.2) ∧
       ¬((22 : ℚ) < temperature_config.warning_range.1 ∨
         (22 : ℚ) > temperature_config.warning_range.2))) := by
  have h := C1_status_classification temperature_config
    { device_id := "temperature_01", type := "temperature" } [] 0 testOracle rfl
    ⟨by norm_num [temperature_config], by norm_num [temperature_config]⟩ rfl
  exact ⟨⟨rfl, by norm_num [temperature_config], by norm_num [temperature_config], rfl⟩,
    h.1, h.2 22⟩

/-- Claim C2: after `add_manual_anomaly(device_id, V, D)` called at time `T`,
a tick at any `now` with `T ≤ now ≤ T + D` returns `(V, critical)` and leaves
the table unchanged, while a tick at any `now > T + D` returns the rounded,
classified SignalModel value and deletes the stored entry. -/
theorem C2_manual_anomaly_lifetime (table : AnomalyTable) (device : Device)
    (config : SensorTypeConfig) (V D T now : ℚ) (rng : RandomOracle)
    (hcfg : lookupConfig device.type = some config) :
    (T ≤ now → now ≤ T + D →
      generate_value (add_manual_anomaly table device.device_id V D T) device now rng =
        some ((V, Status.critical), add_manual_anomaly table device.device_id V D T)) ∧
    (T + D < now →
      generate_value (add_manual_anomaly table device.device_id V D T) device now rng =
        some ((roundTo2 (signal_model config now rng),
               classifyStatus config (signal_model config now rng)),
              tableErase (add_manual_anomaly table device.device_id V D T)
                device.device_id)) := by
  have hfind : tableFind (add_manual_anomaly table device.device_id V D T) device.device_id =
      some { value := V, end_time := T + D } := tableFind_insert_self _ _ _
  constructor
  · intro _ h2
    exact generate_value_active _ _ _ _ _ _ hcfg hfind h2
  · intro h
    exact generate_value_expired _ _ _ _ _ _ hcfg hfind (not_le.mpr h)

/-- Witness for C2: anomaly value `45` with duration `20` installed at
`T = 100` for the temperature device, queried at `now = 110` (inside the
window) and `now = 130` (past expiry). -/
theorem C2_witness :
    lookupConfig "temperature" = some temperature_config ∧
    ((100 : ℚ) ≤ 110 ∧ (110 : ℚ) ≤ 100 + 20 ∧
      generate_value (add_manual_anomaly [] "temperature_01" 45 20 100)
          { device_id := "temperature_01", type := "temperature" } 110 testOracle =
        some ((45, Status.critical), add_manual_anomaly [] "temperature_01" 45 20 100)) ∧
    ((100 : ℚ) + 20 < 130 ∧
      generate_value (add_manual_anomaly [] "temperature_01" 45 20 100)
          { device_id := "temperature_01", type := "temperature" } 130 testOracle =
        some ((roundTo2 (signal_model temperature_config 130 testOracle),
               classifyStatus temperature_config (signal_model temperature_config 130 testOracle)),
              tableErase (add_manual_anomaly [] "temperature_01" 45 20 100) "temperature_01")) := by
  refine ⟨rfl, ⟨by norm_num, by norm_num, ?_⟩, ⟨by norm_num, ?_⟩⟩
  · exact (C2_manual_anomaly_lifetime [] { device_id := "temperature_01", type := "temperature" }
      temperature_config 45 20 100 110 testOracle rfl).1 (by norm_num) (by norm_num)
  · exact (C2_manual_anomaly_lifetime [] { device_id := "temperature_01", type := "temperature" }
      temperature_config 45 20 100 130 testOracle rfl).2 (by norm_num)

/-- Claim C3: `save_history_data` always leaves at most `max_records`
entries; the retained entries are a suffix of prior-contents-plus-batch (the
most recently appended entries, in their original order) of length exactly
`min (prior ++ batch).length max_records`; and `max_records` is
`(86400 / 5) * device_count`. -/
theorem C3_history_retention (f : HistoryFile) (data_batch : List SensorReading) :
    (save_history_data f data_batch).length ≤ max_records ∧
    save_history_data f data_batch <:+ (load_history f ++ data_batch) ∧
    (save_history_data f data_batch).length =
      min (load_history f ++ data_batch).length max_records ∧
    max_records = 86400 / 5 * devices.length := by
  have hsplit : save_history_data f data_batch =
      if (load_history f ++ data_batch).length > max_records then
        (load_history f ++ data_batch).drop
          ((load_history f ++ data_batch).length - max_records)
      else load_history f ++ data_batch := rfl
  by_cases h : (load_history f ++ data_batch).length > max_records
  · rw [hsplit, if_pos h]
    refine ⟨?_, List.drop_suffix _ _, ?_, rfl⟩
    · rw [List.length_drop]; omega
    · rw [List.length_drop]; omega
  · rw [hsplit, if_neg h]
    exact ⟨by omega, List.suffix_refl _, by omega, rfl⟩

/-- Claim C6: when the history file is missing, or exists but cannot be
parsed as JSON, the prior history is read as the empty list and the batch is
still written: `save_history_data` behaves exactly as on an empty parsed
file, with no failure. -/
theorem C6_corrupt_read_recovery (f : HistoryFile) (data_batch : List SensorReading)
    (h : f = HistoryFile.missing ∨ f = HistoryFile.corrupt) :
    load_history f = [] ∧
    save_history_data f data_batch = save_history_data (HistoryFile.parsed []) data_batch := by
  rcases h with h | h <;> subst h <;> exact ⟨rfl, rfl⟩

/-- Witness for C6 at a missing history file and an empty batch. -/
theorem C6_witness :
    (HistoryFile.missing = HistoryFile.missing ∨
     HistoryFile.missing = HistoryFile.corrupt) ∧
    load_history HistoryFile.missing = [] ∧
    save_history_data HistoryFile.missing [] =
      save_history_data (HistoryFile.parsed []) [] :=
  ⟨Or.inl rfl, C6_corrupt_read_recovery HistoryFile.missing [] (Or.inl rfl)⟩

/-- Counterexample to C5: while a manual anomaly with value `45.123` is
active for `temperature_01`, the tick's `generate_value` returns the stored
value verbatim, and `45.123` is not equal to its own 2-decimal rounding —
so not every reading carries a 2-decimal-rounded value. -/
theorem C5_counterexample :
    generate_value [("temperature_01", { value := 45123/1000, end_time := 100 })]
        { device_id := "temperature_01", type := "temperature" } 50 testOracle =
      some ((45123/1000, Status.critical),
            [("temperature_01", { value := 45123/1000, end_time := 100 })]) ∧
    roundTo2 (45123/1000) ≠ 45123/1000 := by
  constructor
  · exact generate_value_active
      [("temperature_01", { value := 45123/1000, end_time := 100 })]
      { device_id := "temperature_01", type := "temperature" } 50 testOracle
      temperature_config { value := 45123/1000, end_time := 100 }
      rfl rfl (by norm_num)
  · have hfloor : ⌊(45123 : ℚ)/1000 * 100⌋ = 4512 := by
      rw [Int.floor_eq_iff]
      norm_num
    have hre : roundHalfEven ((45123 : ℚ)/1000 * 100) = 4512 := by
      simp only [roundHalfEven, hfloor]
      norm_num
    unfold roundTo2
    rw [hre]
    norm_num

/-- Amended C5: a reading produced on the non-manual-anomaly path — no entry
for the device, or only an expired one — carries a 2-decimal-rounded value
(`roundTo2` fixes it); an active manual anomaly instead passes the installed
value through verbatim. -/
theorem C5_rounding_amended (manual_anomalies : AnomalyTable) (device : Device)
    (config : SensorTypeConfig) (timestamp : ℚ) (rng : RandomOracle)
    (v : ℚ) (st : Status) (table : AnomalyTable)
    (hcfg : lookupConfig device.type = some config)
    (hno : ∀ a, tableFind manual_anomalies device.device_id = some a →
      a.end_time < timestamp)
    (h : generate_value manual_anomalies device timestamp rng = some ((v, st), table)) :
    roundTo2 v = v := by
  cases ha : tableFind manual_anomalies device.device_id with
  | none =>
    rw [generate_value_no_anomaly _ _ _ _ _ hcfg ha] at h
    simp only [Option.some.injEq, Prod.mk.injEq] at h
    obtain ⟨⟨hv, -⟩, -⟩ := h
    rw [← hv, roundTo2_idem]
  | some a =>
    have ht : ¬ a.end_time ≥ timestamp := not_le.mpr (hno a ha)
    rw [generate_value_expired _ _ _ _ _ _ hcfg ha ht] at h
    simp only [Option.some.injEq, Prod.mk.injEq] at h
    obtain ⟨⟨hv, -⟩, -⟩ := h
    rw [← hv, roundTo2_idem]

/-- Witness for the amended C5: the temperature device with an empty anomaly
table at time `0` under the test oracle. -/
theorem C5_witness :
    (lookupConfig "temperature" = some temperature_config ∧
     tableFind [] "temperature_01" = none) ∧
    roundTo2 (roundTo2 (signal_model temperature_config 0 testOracle)) =
      roundTo2 (signal_model temperature_config 0 testOracle) := by
  refine ⟨⟨rfl, rfl⟩, ?_⟩
  exact C5_rounding_amended [] { device_id := "temperature_01", type := "temperature" }
    temperature_config 0 testOracle _ _ _ rfl
    (fun a ha => Option.noConfusion ha)
    (generate_value_no_anomaly _ _ _ _ _ rfl rfl)

/-- Counterexample to C4: with every write failing (disk full), the modelled
tick loop stops with the propagated error after zero completed ticks — it
does not log and continue to later ticks. -/
theorem C4_counterexample :
    run_ticks (fun _ => Except.error IOErr.diskFull) [] "history_20240101.json" 3 =
      Except.error IOErr.diskFull ∧
    run_ticks (fun _ => Except.error IOErr.diskFull) [] "history_20240101.json" 3 ≠
      Except.ok 3 := by
  refine ⟨rfl, ?_⟩
  intro h
  rw [show run_ticks (fun _ => Except.error IOErr.diskFull) [] "history_20240101.json" 3 =
      Except.error IOErr.diskFull from rfl] at h
  exact Except.noConfusion h

/-- Amended C4: `generate_data` wraps no persistence call in a handler, so an
I/O error raised by any write in a tick propagates out of the loop and
terminates it with that error, regardless of how many ticks remained. -/
theorem C4_error_propagation (fs : String → Except IOErr Unit)
    (data_batch : List SensorReading) (history_name : String) (e : IOErr) (n : ℕ)
    (h : tick_persist fs data_batch history_name = Except.error e) :
    run_ticks fs data_batch history_name (n + 1) = Except.error e := by
  simp [run_ticks, h]

/-- Witness for the amended C4: a permission error on every write ends a
3-tick run with that error. -/
theorem C4_witness :
    tick_persist (fun _ => Except.error IOErr.permission) [] "history_20240101.json" =
      Except.error IOErr.permission ∧
    run_ticks (fun _ => Except.error IOErr.permission) [] "history_20240101.json" 3 =
      Except.error IOErr.permission :=
  ⟨rfl, C4_error_propagation _ _ _ _ 2 rfl⟩

/-- Claim C9: `generate_value` is total for every catalog device: the config
lookup succeeds, its `trend_period` is positive (the trend computation never
divides by zero), and the call returns a `(value, status)` pair whose status
is one of the three severities, for any timestamp, table, and oracle. -/
theorem C9_generate_value_total (device : Device) (manual_anomalies : AnomalyTable)
    (timestamp : ℚ) (rng : RandomOracle) (hdev : device ∈ devices) :
    ∃ config, lookupConfig device.type = some config ∧ 0 < config.trend_period ∧
      ∃ v st table, generate_value manual_anomalies device timestamp rng =
          some ((v, st), table) ∧
        (st = Status.normal ∨ st = Status.warning ∨ st = Status.critical) := by
  obtain ⟨config, hcfg⟩ := Option.isSome_iff_exists.mp (devices_lookup_isSome device hdev)
  obtain ⟨p, hp, hpc⟩ := lookupConfig_mem _ _ hcfg
  obtain ⟨v, st, table, hgv⟩ :=
    generate_value_isSome manual_anomalies device timestamp rng config hcfg
  refine ⟨config, hcfg, ?_, v, st, table, hgv, ?_⟩
  · rw [← hpc]
    exact configs_trend_period_pos p hp
  · cases st <;> simp

/-- Witness for C9: the first temperature device at time `0`. -/
theorem C9_witness :
    ({ device_id := "temperature_01", type := "temperature" } : Device) ∈ devices ∧
    (∃ config, lookupConfig "temperature" = some config ∧ 0 < config.trend_period ∧
      ∃ v st table,
        generate_value [] { device_id := "temperature_01", type := "temperature" } 0 testOracle =
          some ((v, st), table) ∧
        (st = Status.normal ∨ st = Status.warning ∨ st = Status.critical)) := by
  have hdev : ({ device_id := "temperature_01", type := "temperature" } : Device) ∈ devices := by
    decide
  exact ⟨hdev, C9_generate_value_total _ [] 0 testOracle hdev⟩

theorem build_batch_ok (timestamp : ℚ) (rngs : ℕ → RandomOracle) :
    ∀ (l : List Device) (i : ℕ) (manual_anomalies : AnomalyTable),
      (∀ d ∈ l, (lookupConfig d.type).isSome) →
      ∃ readings final_table,
        build_batch timestamp rngs l i manual_anomalies = some (readings, final_table) ∧
        readings.map (fun r => r.device_id) = l.map (fun d => d.device_id) ∧
        ∀ r ∈ readings, r.timestamp = timestamp := by
  intro l
  induction l with
  | nil =>
    intro i t _
    exact ⟨[], t, rfl, rfl, by simp⟩
  | cons d rest ih =>
    intro i t hall
    obtain ⟨config, hcfg⟩ :=
      Option.isSome_iff_exists.mp (hall d (List.mem_cons_self d rest))
    obtain ⟨v, st, t2, hgv⟩ := generate_value_isSome t d timestamp (rngs i) config hcfg
    obtain ⟨readings, ftab, hbb, hmap, hts⟩ :=
      ih (i + 1) t2 (fun x hx => hall x (List.mem_cons_of_mem d hx))
    refine ⟨{ device_id := d.device_id, type := d.type, value := v, unit := config.unit,
              timestamp := timestamp, status := st } :: readings, ftab, ?_, ?_, ?_⟩
    · simp only [build_batch, hcfg, hgv, hbb]
    · simp [hmap]
    · intro r hr
      rcases List.mem_cons.mp hr with h | h
      · subst h; rfl
      · exact hts r h

/-- Claim C10: one tick over the catalog always yields a batch holding
exactly one reading per catalog device, in catalog order (the readings'
device ids equal the catalog's device ids, in order), and every reading in
the batch carries the single timestamp sampled at the start of the tick. -/
theorem C10_batch_shape (manual_anomalies : AnomalyTable) (timestamp : ℚ)
    (rngs : ℕ → RandomOracle) :
    ∃ readings final_table,
      build_batch timestamp rngs devices 0 manual_anomalies = some (readings, final_table) ∧
      readings.length = devices.length ∧
      readings.map (fun r => r.device_id) = devices.map (fun d => d.device_id) ∧
      ∀ r ∈ readings, r.timestamp = timestamp := by
  obtain ⟨readings, ftab, h1, h2, h3⟩ :=
    build_batch_ok timestamp rngs devices 0 manual_anomalies devices_lookup_isSome
  refine ⟨readings, ftab, h1, ?_, h2, h3⟩
  have hlen := congrArg List.length h2
  simpa using hlen

/-- Witness for C10: a tick at time `0` with the empty table and the test
oracle for every device. -/
theorem C10_witness :
    ∃ readings final_table,
      build_batch 0 (fun _ => testOracle) devices 0 [] = some (readings, final_table) ∧
      readings.length = devices.length ∧
      readings.map (fun r => r.device_id) = devices.map (fun d => d.device_id) ∧
      ∀ r ∈ readings, r.timestamp = 0 :=
  C10_batch_shape [] 0 (fun _ => testOracle)

end SignalMonitoring
